import Mathlib

/-!
A shallow embedding of the Recognition Matching & Live-Activity Fan-out
Engine of the Prison-Backend repository:

* the similarity metrics and the match decision policy of
  `app/utils/face_tools.py` (`cosine_similarity`, `euclidean_distance`,
  `distance_to_score`, `choose_match`);
* the recognition orchestrator of `app/routes/recognize.py`
  (`recognize_face`), embedded from the point where the query embedding is
  available — image decoding, face detection and the neural embedding
  extractor are external collaborators excluded from the core;
* the broadcast hub of `app/routes/activity.py` (`broadcast_activity`).

Python floats are modelled as real numbers.  The value `float("inf")`
stored in the best-Euclidean dictionary is modelled by the `none` case of
an `Option ℝ` field.  A NumPy call that raises an exception is modelled by
an `Except Unit ℝ` result; NumPy's 1-D broadcasting rule (an operand of
length 1 is stretched to the other operand's length) is modelled
explicitly in `euclidean_distance`.
-/

open Classical

/-- Sum of squares of a list of reals: the quantity under the square root
in `numpy.linalg.norm`. -/
def sumSq : List ℝ → ℝ
  | [] => 0
  | x :: t => x * x + sumSq t

/-- Inner product of two lists, as `numpy.dot` computes it on two 1-D
arrays of equal length (it is only reached on equal lengths). -/
def dotProduct : List ℝ → List ℝ → ℝ
  | x :: a, y :: b => x * y + dotProduct a b
  | _, _ => 0

/-- The function `numpy.linalg.norm` on a 1-D array. -/
noncomputable def norm2 (a : List ℝ) : ℝ := Real.sqrt (sumSq a)

/-- Function `cosine_similarity` from `app/utils/face_tools.py` (lines 33-45).
The zero-norm check precedes the dot product, so a zero-norm operand
returns `0.0` even on mismatched lengths; `numpy.dot` raises on two 1-D
arrays of unequal length, modelled by `Except.error ()`. -/
noncomputable def cosine_similarity (a b : List ℝ) : Except Unit ℝ :=
  if norm2 a = 0 ∨ norm2 b = 0 then Except.ok 0
  else if a.length = b.length then
    Except.ok (dotProduct a b / (norm2 a * norm2 b))
  else Except.error ()

/-- Function `euclidean_distance` from `app/utils/face_tools.py` (lines 51-58):
`float(np.linalg.norm(a_arr - b_arr))`.  NumPy subtraction of two 1-D
arrays broadcasts an operand of length 1 and raises on any other length
mismatch. -/
noncomputable def euclidean_distance (a b : List ℝ) : Except Unit ℝ :=
  if a.length = b.length then
    Except.ok (Real.sqrt (sumSq (List.zipWith (fun x y => x - y) a b)))
  else if a.length = 1 then
    Except.ok (Real.sqrt (sumSq (b.map (fun y => a.headI - y))))
  else if b.length = 1 then
    Except.ok (Real.sqrt (sumSq (a.map (fun x => x - b.headI))))
  else Except.error ()

/-- Function `distance_to_score` from `app/utils/face_tools.py` (lines 61-67). -/
noncomputable def distance_to_score (dist : ℝ) : ℝ := 1 / (1 + dist)

/-- One stored embedding entry of an inmate document, as the gallery scan
in `app/routes/recognize.py` (lines 103-110) classifies it:
`missing` — the `"vector"` key is absent; `empty` — the key is present but
its value is falsy (an empty list); `malformed` — `np.asarray` raises on
the value; `ok v` — the value converts to the numeric vector `v`
(a present, nonempty, convertible entry). -/
inductive StoredVec
  | missing
  | empty
  | malformed
  | ok (v : List ℝ)

/-- An inmate document read from the gallery store.  `inmate_id` is
accessed with `doc["inmate_id"]`, `name` and `prison_name` with
`doc.get(...)` (hence optional). -/
structure InmateDoc where
  inmate_id : String
  name : Option String
  prison_name : Option String
  embeddings : List StoredVec

/-- The running best-cosine candidate `{"score": ..., "inmate": ...}` of
`app/routes/recognize.py` line 99. -/
structure BestCos where
  score : ℝ
  inmate : Option InmateDoc

/-- The running best-Euclidean candidate `{"dist": ..., "inmate": ...}` of
`app/routes/recognize.py` line 100; `dist = none` models the initial
`float("inf")`. -/
structure BestEuc where
  dist : Option ℝ
  inmate : Option InmateDoc

/-- Processing of one stored embedding entry inside the gallery scan,
`app/routes/recognize.py` lines 104-126: skip missing/empty/malformed
vectors; a raising cosine computation is absorbed by `except: pass` and
the Euclidean comparison still runs; a raising Euclidean computation is
absorbed likewise. -/
noncomputable def scanEmb (q : List ℝ) (doc : InmateDoc)
    (st : BestCos × BestEuc) : StoredVec → BestCos × BestEuc
  | StoredVec.missing => st
  | StoredVec.empty => st
  | StoredVec.malformed => st
  | StoredVec.ok v =>
    let st1 :=
      match cosine_similarity q v with
      | Except.error _ => st
      | Except.ok c =>
        if st.1.score < c then ({ score := c, inmate := some doc }, st.2) else st
    match euclidean_distance q v with
    | Except.error _ => st1
    | Except.ok d =>
      match st1.2.dist with
      | none => (st1.1, { dist := some d, inmate := some doc })
      | some bd =>
        if d < bd then (st1.1, { dist := some d, inmate := some doc }) else st1

/-- Scan of all embeddings of one document (`for emb in doc.get("embeddings", [])`). -/
noncomputable def scanDoc (q : List ℝ) (st : BestCos × BestEuc) (doc : InmateDoc) :
    BestCos × BestEuc :=
  doc.embeddings.foldl (scanEmb q doc) st

/-- The initial best candidates of `app/routes/recognize.py` lines 99-100. -/
noncomputable def initBest : BestCos × BestEuc :=
  ({ score := 0, inmate := none }, { dist := none, inmate := none })

/-- Scan of the whole gallery (`for doc in inmates_col.find({})`). -/
noncomputable def scanGallery (q : List ℝ) (gallery : List InmateDoc) :
    BestCos × BestEuc :=
  gallery.foldl (scanDoc q) initBest

/-- Function `choose_match` from `app/utils/face_tools.py` (lines 70-103).
`best_cos.get("inmate")` truthiness is `Option.isSome`;
`best_euc.get("dist", float("inf")) <= euc_threshold` is false when the
distance is absent/infinite (the `Option.elim False` case); the final
`elif best_euc.get("dist", inf) != float("inf")` is `Option.isSome`. -/
noncomputable def choose_match (best_cos : BestCos) (best_euc : BestEuc)
    (cos_threshold euc_threshold : ℝ) : Option InmateDoc × String × ℝ :=
  if best_cos.inmate.isSome ∧ cos_threshold ≤ best_cos.score then
    (best_cos.inmate, "cosine", best_cos.score)
  else if best_euc.inmate.isSome ∧
      best_euc.dist.elim False (fun d => d ≤ euc_threshold) then
    (best_euc.inmate, "euclidean", distance_to_score (best_euc.dist.getD 0))
  else if 0 < best_cos.score then
    (none, "none", best_cos.score)
  else if best_euc.dist.isSome then
    (none, "none", distance_to_score (best_euc.dist.getD 0))
  else
    (none, "none", 0)

/-- Constant `COSINE_THRESHOLD` of `app/routes/recognize.py` line 67. -/
noncomputable def COSINE_THRESHOLD : ℝ := 0.85

/-- Constant `EUCLIDEAN_THRESHOLD` of `app/routes/recognize.py` line 68. -/
noncomputable def EUCLIDEAN_THRESHOLD : ℝ := 0.6

/-- Constant `RECOGNITION_COOLDOWN` of `app/routes/recognize.py` line 69 (seconds). -/
noncomputable def RECOGNITION_COOLDOWN : ℝ := 30

/-- The authenticated officer performing the recognition.  The code
resolves an id (raising if absent — not modelled, the id is a field here)
and reads an optional display name. -/
structure Officer where
  officerId : String
  name : Option String

/-- The document inserted into `logs_col` (`app/routes/recognize.py`
lines 155-164); the MatchRecord of the spec.  Timestamps are reals. -/
structure LogDoc where
  inmate_id : String
  inmate_name : Option String
  prison_name : Option String
  score : ℝ
  image : String
  recognized_by : String
  recognized_at : ℝ

/-- The payload handed to `broadcast_activity`
(`app/routes/recognize.py` lines 168-176); the ActivityEvent. -/
structure Payload where
  inmate_id : String
  inmate_name : Option String
  prison_name : Option String
  officer_name : Option String
  score : ℝ
  method : String
  recognized_at : ℝ

/-- The mutable state the orchestrator touches: the in-memory
`last_recognized` dict (identity id → last accepted time), the match
ledger `logs_col` (modelled as the list of inserted documents), and the
sequence of payloads passed to `broadcast_activity`. -/
structure RecogState where
  last_recognized : List (String × ℝ)
  logs : List LogDoc
  events : List Payload

/-- Python `dict.get`: lookup in the `last_recognized` association list. -/
def lookupTime : List (String × ℝ) → String → Option ℝ
  | [], _ => none
  | (k, v) :: t, key => if k = key then some v else lookupTime t key

/-- Python dict assignment: replace-or-append in the `last_recognized`
association list. -/
def setTime : List (String × ℝ) → String → ℝ → List (String × ℝ)
  | [], key, v => [(key, v)]
  | (k, w) :: t, key, v =>
    if k = key then (key, v) :: t else (k, w) :: setTime t key v

/-- The fields of the final `JSONResponse` of `app/routes/recognize.py`
lines 210-218 that belong to the specified core.  The response also
carries `boxes` and `image_base64`, which are derived from the face
boxes and the uploaded image only (image plumbing outside the core); the
core-relevant content of each box entry (`recognized`, `name`, `score`)
is again determined by `chosen`, `method` and `reported_score`. -/
structure RecogResponse where
  inmate_id : Option String
  name : Option String
  prison_name : Option String
  score : ℝ
  method : String

/-- Building the response from the chosen document, method and score,
exactly as lines 210-218 do. -/
noncomputable def mkResponse (chosen : Option InmateDoc) (method : String)
    (score : ℝ) : RecogResponse :=
  { inmate_id := chosen.map (fun d => d.inmate_id)
    name := chosen.bind (fun d => d.name)
    prison_name := chosen.bind (fun d => d.prison_name)
    score := score
    method := method }

/-- The match decision computed inside `recognize_face`: scan the gallery,
then apply `choose_match` with the module thresholds
(`app/routes/recognize.py` lines 99-132). -/
noncomputable def decisionOf (q : List ℝ) (gallery : List InmateDoc) :
    Option InmateDoc × String × ℝ :=
  choose_match (scanGallery q gallery).1 (scanGallery q gallery).2
    COSINE_THRESHOLD EUCLIDEAN_THRESHOLD

/-- The recognition orchestrator, `recognize_face` of
`app/routes/recognize.py` lines 99-218, from the point the query
embedding `q` exists.  `now` is the single call timestamp (the code reads
`time.time()` for the cooldown and `datetime.utcnow()` for the record; a
single clock models both).  On an accepted, non-suppressed match the call
records the time, appends a `LogDoc` to the ledger and hands a `Payload`
to the broadcast hub; a suppressed match only prints a message; the
response is always built from the decision alone. -/
noncomputable def recognize_face (q : List ℝ) (imageName : String)
    (officer : Officer) (now : ℝ) (gallery : List InmateDoc)
    (st : RecogState) : RecogResponse × RecogState :=
  let d := decisionOf q gallery
  let st2 :=
    match d.1 with
    | none => st
    | some doc =>
      let last_seen := (lookupTime st.last_recognized doc.inmate_id).getD 0
      if RECOGNITION_COOLDOWN ≤ now - last_seen then
        { last_recognized := setTime st.last_recognized doc.inmate_id now
          logs := st.logs ++ [{ inmate_id := doc.inmate_id
                                inmate_name := doc.name
                                prison_name := doc.prison_name
                                score := d.2.2
                                image := imageName
                                recognized_by := officer.officerId
                                recognized_at := now }]
          events := st.events ++ [{ inmate_id := doc.inmate_id
                                    inmate_name := doc.name
                                    prison_name := doc.prison_name
                                    officer_name := officer.name
                                    score := d.2.2
                                    method := d.2.1
                                    recognized_at := now }] }
      else st
  (mkResponse d.1 d.2.1 d.2.2, st2)

/-- A live observer connection of `app/routes/activity.py`.  `healthy`
abstracts whether `send_json` succeeds for this connection during the
broadcast (an unhealthy connection's send raises). -/
structure Observer where
  oid : Nat
  healthy : Bool
deriving DecidableEq

/-- Function `broadcast_activity` of `app/routes/activity.py` lines 30-42: iterate
over a snapshot `list(_connections)` of the registry, attempt each send,
and on a raising send remove that connection from the live registry (the
`remove` is itself wrapped in `try/except`, so removing an absent
connection is a no-op — `List.erase` has the same behaviour).  Returns the
surviving registry and the deliveries made; every exception is caught, so
the function is total — nothing propagates to the caller. -/
def broadcast_activity (payload : Payload) (conns : List Observer) :
    List Observer × List (Observer × Payload) :=
  conns.foldl
    (fun acc c =>
      if c.healthy then (acc.1, acc.2 ++ [(c, payload)])
      else (acc.1.erase c, acc.2))
    (conns, [])

/-- A concrete enrolled inmate document used in witnesses and
counterexamples: one enrolled one-dimensional embedding `[1]`. -/
noncomputable def wdoc : InmateDoc :=
  { inmate_id := "i1", name := some "Alice", prison_name := some "P1",
    embeddings := [StoredVec.ok [1]] }

/-- A concrete inmate document with a two-dimensional enrolled embedding
`[1, 0]`, used in witnesses and counterexamples. -/
noncomputable def wdoc2 : InmateDoc :=
  { inmate_id := "i2", name := some "Bob", prison_name := some "P2",
    embeddings := [StoredVec.ok [1, 0]] }

/-- A concrete officer used in witnesses and counterexamples. -/
def woff : Officer := { officerId := "o1", name := some "Olive" }

/-- The empty orchestrator state used in witnesses and counterexamples. -/
def st0 : RecogState := { last_recognized := [], logs := [], events := [] }

/-! ## Helper lemmas -/

/-- For a nonnegative distance the mapped score is positive. -/
lemma distance_to_score_pos {d : ℝ} (h : 0 ≤ d) : 0 < distance_to_score d := by
  unfold distance_to_score
  have h1 : (0:ℝ) < 1 + d := by linarith
  exact one_div_pos.mpr h1

/-- For a nonnegative distance the mapped score is at most one. -/
lemma distance_to_score_le_one {d : ℝ} (h : 0 ≤ d) : distance_to_score d ≤ 1 := by
  unfold distance_to_score
  rw [div_le_one (by linarith)]
  linarith

/-- `choose_match` on the initial (empty-scan) candidates rejects with
score zero. -/
lemma choose_match_initBest (ct et : ℝ) :
    choose_match initBest.1 initBest.2 ct et = (none, "none", 0) := by
  simp [choose_match, initBest]

/-! ## Claim C9 -/

/-- Claim C9: `distance_to_score dist` equals `1 / (1 + dist)`, maps
`dist = 0` to exactly `1`, yields a value in `(0, 1]` for every
`dist ≥ 0`, and is strictly decreasing on the distances. -/
theorem distance_to_score_spec :
    (∀ d : ℝ, distance_to_score d = 1 / (1 + d)) ∧
    distance_to_score 0 = 1 ∧
    (∀ d : ℝ, 0 ≤ d → 0 < distance_to_score d ∧ distance_to_score d ≤ 1) ∧
    (∀ d1 d2 : ℝ, 0 ≤ d1 → d1 < d2 →
      distance_to_score d2 < distance_to_score d1) := by
  refine ⟨fun d => rfl, by simp [distance_to_score], ?_, ?_⟩
  · exact fun d hd => ⟨distance_to_score_pos hd, distance_to_score_le_one hd⟩
  · intro d1 d2 h1 h12
    unfold distance_to_score
    exact one_div_lt_one_div_of_lt (by linarith) (by linarith)

/-- Witness for C9 at the concrete distances 0, 1 and 2. -/
theorem distance_to_score_spec_witness :
    distance_to_score 0 = 1 ∧ 0 < distance_to_score 1 ∧
    distance_to_score 2 < distance_to_score 1 :=
  ⟨distance_to_score_spec.2.1,
   (distance_to_score_spec.2.2.1 1 (by norm_num)).1,
   distance_to_score_spec.2.2.2 1 2 (by norm_num) (by norm_num)⟩

/-! ## Claim C8 -/

/-- Claim C8: whenever the best cosine score lies in `[-1, 1]` and the
best Euclidean distance (when present) is nonnegative, the reported
confidence score of `choose_match` lies in `[0, 1]` in every branch. -/
theorem reported_score_in_unit_interval (bc : BestCos) (be : BestEuc)
    (hlo : -1 ≤ bc.score) (hhi : bc.score ≤ 1)
    (hd : ∀ d : ℝ, be.dist = some d → 0 ≤ d) :
    0 ≤ (choose_match bc be COSINE_THRESHOLD EUCLIDEAN_THRESHOLD).2.2 ∧
    (choose_match bc be COSINE_THRESHOLD EUCLIDEAN_THRESHOLD).2.2 ≤ 1 := by
  unfold choose_match
  split_ifs with h1 h2 h3 h4
  · have hct : (0:ℝ) ≤ COSINE_THRESHOLD := by norm_num [COSINE_THRESHOLD]
    exact ⟨le_trans hct h1.2, hhi⟩
  · cases hbe : be.dist with
    | none => rw [hbe] at h2; simp at h2
    | some d =>
      have hdd : 0 ≤ d := hd d hbe
      simp only [hbe, Option.getD_some]
      exact ⟨le_of_lt (distance_to_score_pos hdd), distance_to_score_le_one hdd⟩
  · exact ⟨le_of_lt h3, hhi⟩
  · cases hbe : be.dist with
    | none => rw [hbe] at h4; simp at h4
    | some d =>
      have hdd : 0 ≤ d := hd d hbe
      simp only [hbe, Option.getD_some]
      exact ⟨le_of_lt (distance_to_score_pos hdd), distance_to_score_le_one hdd⟩
  · norm_num

/-- Witness for C8 at a concrete pair of best candidates. -/
theorem reported_score_in_unit_interval_witness :
    0 ≤ (choose_match { score := 0.5, inmate := none }
          { dist := some 2, inmate := none }
          COSINE_THRESHOLD EUCLIDEAN_THRESHOLD).2.2 ∧
    (choose_match { score := 0.5, inmate := none }
          { dist := some 2, inmate := none }
          COSINE_THRESHOLD EUCLIDEAN_THRESHOLD).2.2 ≤ 1 :=
  reported_score_in_unit_interval _ _ (by norm_num) (by norm_num)
    (by intro d hdeq; injection hdeq with h; rw [← h]; norm_num)

/-! ## Claim C2 -/

/-- Claim C2: the match decision applies, in priority order: a best
cosine candidate with score `≥ COSINE_THRESHOLD` (boundary inclusive) is
accepted with method `"cosine"` and the cosine score; otherwise a best
Euclidean candidate with distance `≤ EUCLIDEAN_THRESHOLD` is accepted
with method `"euclidean"` and score `distance_to_score distance`;
otherwise the decision rejects with identity `none` and method
`"none"`. -/
theorem choose_match_priority_order (bc : BestCos) (be : BestEuc) :
    (∀ doc : InmateDoc, bc.inmate = some doc → COSINE_THRESHOLD ≤ bc.score →
      choose_match bc be COSINE_THRESHOLD EUCLIDEAN_THRESHOLD =
        (some doc, "cosine", bc.score)) ∧
    (¬(bc.inmate.isSome ∧ COSINE_THRESHOLD ≤ bc.score) →
      ∀ (doc : InmateDoc) (d : ℝ), be.inmate = some doc → be.dist = some d →
        d ≤ EUCLIDEAN_THRESHOLD →
        choose_match bc be COSINE_THRESHOLD EUCLIDEAN_THRESHOLD =
          (some doc, "euclidean", distance_to_score d)) ∧
    (¬(bc.inmate.isSome ∧ COSINE_THRESHOLD ≤ bc.score) →
      ¬(be.inmate.isSome ∧
          be.dist.elim False (fun d => d ≤ EUCLIDEAN_THRESHOLD)) →
      (choose_match bc be COSINE_THRESHOLD EUCLIDEAN_THRESHOLD).1 = none ∧
      (choose_match bc be COSINE_THRESHOLD EUCLIDEAN_THRESHOLD).2.1 =
        "none") := by
  refine ⟨?_, ?_, ?_⟩
  · intro doc hdoc hsc
    unfold choose_match
    rw [if_pos ⟨by simp [hdoc], hsc⟩, hdoc]
  · intro hnc doc d hdoc hdist hle
    unfold choose_match
    rw [if_neg hnc, if_pos ⟨by simp [hdoc], by simp [hdist]; exact hle⟩,
      hdoc, hdist]
    simp
  · intro hnc hne
    unfold choose_match
    rw [if_neg hnc, if_neg hne]
    split_ifs <;> simp

/-- Witness for C2 exercising all three branches, the first at the exact
threshold boundary `0.85`. -/
theorem choose_match_priority_order_witness :
    choose_match { score := 0.85, inmate := some wdoc }
        { dist := none, inmate := none }
        COSINE_THRESHOLD EUCLIDEAN_THRESHOLD = (some wdoc, "cosine", 0.85) ∧
    choose_match { score := 0.5, inmate := some wdoc }
        { dist := some 0.5, inmate := some wdoc }
        COSINE_THRESHOLD EUCLIDEAN_THRESHOLD =
      (some wdoc, "euclidean", distance_to_score 0.5) ∧
    (choose_match { score := 0.5, inmate := none }
        { dist := some 0.7, inmate := some wdoc }
        COSINE_THRESHOLD EUCLIDEAN_THRESHOLD).1 = none := by
  refine ⟨(choose_match_priority_order _ _).1 wdoc rfl
      (by norm_num [COSINE_THRESHOLD]),
    (choose_match_priority_order _ _).2.1
      (by simp only [Option.isSome_some]; norm_num [COSINE_THRESHOLD])
      wdoc 0.5 rfl rfl (by norm_num [EUCLIDEAN_THRESHOLD]),
    ((choose_match_priority_order _ _).2.2
      (by simp) (by simp only [Option.isSome_some, Option.elim_some]
                    norm_num [EUCLIDEAN_THRESHOLD])).1⟩

/-! ## Claim C4 -/

/-- Splitting the broadcast fold: the delivered list only grows with the
healthy observers of the snapshot, while the registry evolves by erasing
each unhealthy one. -/
lemma broadcast_foldl_split (p : Payload) (xs : List Observer) :
    ∀ (s : List Observer) (d : List (Observer × Payload)),
      xs.foldl (fun acc c => if c.healthy then (acc.1, acc.2 ++ [(c, p)])
                             else (acc.1.erase c, acc.2)) (s, d) =
        (xs.foldl (fun t c => if c.healthy then t else t.erase c) s,
         d ++ (xs.filter (fun c => c.healthy)).map (fun c => (c, p))) := by
  induction xs with
  | nil => intro s d; simp
  | cons x xs ih =>
    intro s d
    by_cases hx : x.healthy <;>
      simp [List.foldl_cons, List.filter_cons, hx, ih]

/-- The registry fold erases exactly the unhealthy elements of the
snapshot, in order. -/
lemma foldl_erase_unhealthy (xs : List Observer) :
    ∀ s : List Observer,
      xs.foldl (fun t c => if c.healthy then t else t.erase c) s =
        (xs.filter (fun c => !c.healthy)).foldl (fun t c => t.erase c) s := by
  induction xs with
  | nil => intro s; simp
  | cons x xs ih =>
    intro s
    by_cases hx : x.healthy <;>
      simp [List.foldl_cons, List.filter_cons, hx, ih]

/-- Erasing a batch of elements all different from the head leaves the
head in place. -/
lemma foldl_erase_cons_of_ne (c : Observer) (L : List Observer) :
    ∀ s : List Observer, (∀ y ∈ L, y ≠ c) →
      L.foldl (fun t x => t.erase x) (c :: s) =
        c :: L.foldl (fun t x => t.erase x) s := by
  induction L with
  | nil => intro s _; simp
  | cons y L ih =>
    intro s hne
    have hyc : y ≠ c := hne y (by simp)
    have hcy : ¬(c == y) := by simp [hyc.symm]
    simp only [List.foldl_cons, List.erase_cons_tail hcy]
    exact ih (s.erase y) (fun z hz => hne z (by simp [hz]))

/-- Erasing from a list every one of its unhealthy elements leaves
exactly its healthy elements. -/
lemma erase_unhealthy_eq_filter (l : List Observer) :
    (l.filter (fun c => !c.healthy)).foldl (fun t x => t.erase x) l =
      l.filter (fun c => c.healthy) := by
  induction l with
  | nil => simp
  | cons c t ih =>
    by_cases hc : c.healthy
    · have hne : ∀ y ∈ t.filter (fun c => !c.healthy), y ≠ c := by
        intro y hy heq
        have : (!y.healthy) = true := (List.mem_filter.mp hy).2
        rw [heq, hc] at this
        simp at this
      rw [List.filter_cons_of_neg (by simp [hc]),
        foldl_erase_cons_of_ne c _ t hne, ih,
        List.filter_cons_of_pos (by simp [hc])]
    · rw [List.filter_cons_of_pos (by simp [hc])]
      simp only [List.foldl_cons, List.erase_cons_head]
      rw [ih, List.filter_cons_of_neg (by simp [hc])]

/-- Claim C4: for every registry of observers and every payload, a
delivery failure for one observer does not prevent delivery to any other
registered observer, nothing propagates to the caller of
`broadcast_activity` (the function is total and returns normally), and
exactly the failed (unhealthy) observers are removed from the registry:
the surviving registry is the healthy sublist, and the deliveries are
exactly one per healthy observer of the snapshot, in order. -/
theorem broadcast_failure_isolated (p : Payload) (conns : List Observer) :
    broadcast_activity p conns =
      (conns.filter (fun c => c.healthy),
       (conns.filter (fun c => c.healthy)).map (fun c => (c, p))) := by
  unfold broadcast_activity
  rw [broadcast_foldl_split, foldl_erase_unhealthy, erase_unhealthy_eq_filter]
  simp

/-! ## Orchestrator case lemmas -/

/-- Updating the `last_recognized` dictionary then reading the same key
yields the written time. -/
lemma lookupTime_setTime (l : List (String × ℝ)) (k : String) (v : ℝ) :
    lookupTime (setTime l k v) k = some v := by
  induction l with
  | nil => simp [setTime, lookupTime]
  | cons p t ih =>
    obtain ⟨k2, w⟩ := p
    by_cases hk : k2 = k
    · simp [setTime, hk, lookupTime]
    · simp [setTime, hk, lookupTime, ih]

/-- A rejected decision: the call returns the diagnostic response and the
state is untouched. -/
lemma recognize_face_reject (q : List ℝ) (img : String) (o : Officer)
    (now : ℝ) (g : List InmateDoc) (st : RecogState)
    (h : (decisionOf q g).1 = none) :
    recognize_face q img o now g st =
      (mkResponse none (decisionOf q g).2.1 (decisionOf q g).2.2, st) := by
  simp only [recognize_face]
  rw [h]

/-- An accepted decision outside the cooldown window: the time is
recorded, a `LogDoc` is appended and a `Payload` is broadcast. -/
lemma recognize_face_accept (q : List ℝ) (img : String) (o : Officer)
    (now : ℝ) (g : List InmateDoc) (st : RecogState) (doc : InmateDoc)
    (h : (decisionOf q g).1 = some doc)
    (hc : RECOGNITION_COOLDOWN ≤
      now - (lookupTime st.last_recognized doc.inmate_id).getD 0) :
    recognize_face q img o now g st =
      (mkResponse (some doc) (decisionOf q g).2.1 (decisionOf q g).2.2,
       { last_recognized := setTime st.last_recognized doc.inmate_id now
         logs := st.logs ++
           [{ inmate_id := doc.inmate_id
              inmate_name := doc.name
              prison_name := doc.prison_name
              score := (decisionOf q g).2.2
              image := img
              recognized_by := o.officerId
              recognized_at := now }]
         events := st.events ++
           [{ inmate_id := doc.inmate_id
              inmate_name := doc.name
              prison_name := doc.prison_name
              officer_name := o.name
              score := (decisionOf q g).2.2
              method := (decisionOf q g).2.1
              recognized_at := now }] }) := by
  simp only [recognize_face]
  rw [h]
  simp only [if_pos hc]

/-- An accepted decision inside the cooldown window: the match is
suppressed, the caller still gets the response, the state is untouched. -/
lemma recognize_face_suppress (q : List ℝ) (img : String) (o : Officer)
    (now : ℝ) (g : List InmateDoc) (st : RecogState) (doc : InmateDoc)
    (h : (decisionOf q g).1 = some doc)
    (hc : now - (lookupTime st.last_recognized doc.inmate_id).getD 0 <
      RECOGNITION_COOLDOWN) :
    recognize_face q img o now g st =
      (mkResponse (some doc) (decisionOf q g).2.1 (decisionOf q g).2.2, st) := by
  simp only [recognize_face]
  rw [h]
  simp only [if_neg (not_le.mpr hc)]

/-- The decision over the empty gallery is a rejection with score 0. -/
lemma decisionOf_nil (q : List ℝ) : decisionOf q [] = (none, "none", 0) := by
  simp only [decisionOf, scanGallery, List.foldl_nil]
  exact choose_match_initBest _ _

/-! ## Claim C7 -/

/-- Claim C7: a recognize call whose match decision is a rejection leaves
the cooldown map, the match ledger and the broadcast hub unchanged — the
whole mutable state is returned as it was, so no cooldown entry is
written, no `LogDoc` is appended and no `Payload` is broadcast. -/
theorem reject_frame_effect (q : List ℝ) (img : String) (o : Officer)
    (now : ℝ) (g : List InmateDoc) (st : RecogState)
    (h : (decisionOf q g).1 = none) :
    (recognize_face q img o now g st).2 = st := by
  rw [recognize_face_reject q img o now g st h]

/-- Witness for C7: an empty gallery rejects and leaves the state as it
was. -/
theorem reject_frame_effect_witness :
    (recognize_face [1] "img.jpg" woff 100 [] st0).2 = st0 :=
  reject_frame_effect [1] "img.jpg" woff 100 [] st0
    (by rw [decisionOf_nil])

/-! ## Claim C6 -/

/-- Claim C6: when the decision rejects, the reported diagnostic score is
the best cosine score when that is positive, otherwise the
distance-mapped score of the best Euclidean candidate when a finite
distance exists, otherwise `0`; and over the empty gallery the call
rejects with identity `none`, method `"none"`, score `0`, with no ledger
write and no broadcast. -/
theorem reject_diagnostic_score (bc : BestCos) (be : BestEuc)
    (h : (choose_match bc be COSINE_THRESHOLD EUCLIDEAN_THRESHOLD).1 = none) :
    ((choose_match bc be COSINE_THRESHOLD EUCLIDEAN_THRESHOLD).2.2 =
      (if 0 < bc.score then bc.score
       else if be.dist.isSome then distance_to_score (be.dist.getD 0)
       else 0)) ∧
    (∀ (q : List ℝ) (img : String) (o : Officer) (now : ℝ) (st : RecogState),
      recognize_face q img o now [] st = (mkResponse none "none" 0, st)) := by
  constructor
  · unfold choose_match at h ⊢
    by_cases h1 : bc.inmate.isSome ∧ COSINE_THRESHOLD ≤ bc.score
    · rw [if_pos h1] at h
      simp only at h
      rw [h] at h1
      simp at h1
    · rw [if_neg h1] at h ⊢
      by_cases h2 : be.inmate.isSome ∧
          be.dist.elim False fun d => d ≤ EUCLIDEAN_THRESHOLD
      · rw [if_pos h2] at h
        simp only at h
        rw [h] at h2
        simp at h2
      · rw [if_neg h2]
        split_ifs <;> rfl
  · intro q img o now st
    rw [recognize_face_reject q img o now [] st (by rw [decisionOf_nil]),
      decisionOf_nil]

/-- Witness for C6: a concrete rejected decision whose diagnostic score
is the positive sub-threshold cosine score, and a concrete empty-gallery
call. -/
theorem reject_diagnostic_score_witness :
    ((choose_match { score := 0.5, inmate := some wdoc }
        { dist := some 0.7, inmate := some wdoc }
        COSINE_THRESHOLD EUCLIDEAN_THRESHOLD).2.2 =
      (if (0:ℝ) < ({ score := 0.5, inmate := some wdoc } : BestCos).score
       then ({ score := 0.5, inmate := some wdoc } : BestCos).score
       else if ({ dist := some 0.7, inmate := some wdoc } : BestEuc).dist.isSome
       then distance_to_score
         (({ dist := some 0.7, inmate := some wdoc } : BestEuc).dist.getD 0)
       else 0)) ∧
    recognize_face [1] "img.jpg" woff 100 [] st0 =
      (mkResponse none "none" 0, st0) := by
  have h := reject_diagnostic_score { score := 0.5, inmate := some wdoc }
    { dist := some 0.7, inmate := some wdoc }
    (by
      unfold choose_match
      rw [if_neg, if_neg]
      · split_ifs <;> rfl
      · simp only [Option.isSome_some, Option.elim_some, true_and]
        norm_num [EUCLIDEAN_THRESHOLD]
      · simp only [Option.isSome_some, true_and]
        norm_num [COSINE_THRESHOLD])
  exact ⟨h.1, h.2 [1] "img.jpg" woff 100 st0⟩

/-! ## Concrete evaluations for witnesses and counterexamples -/

/-- The norm of the one-element vector `[1]` is 1. -/
lemma norm2_one : norm2 [(1:ℝ)] = 1 := by
  show Real.sqrt (sumSq [(1:ℝ)]) = 1
  have h : sumSq [(1:ℝ)] = 1 := by simp [sumSq]
  rw [h, Real.sqrt_one]

/-- The norm of the vector `[1, 0]` is 1. -/
lemma norm2_one_zero : norm2 [(1:ℝ), 0] = 1 := by
  show Real.sqrt (sumSq [(1:ℝ), 0]) = 1
  have h : sumSq [(1:ℝ), 0] = 1 := by simp [sumSq]
  rw [h, Real.sqrt_one]

/-- Cosine similarity of `[1]` with itself is 1. -/
lemma cosine_one_one : cosine_similarity [(1:ℝ)] [1] = Except.ok 1 := by
  unfold cosine_similarity
  rw [if_neg (by rw [norm2_one]; norm_num), if_pos rfl, norm2_one]
  norm_num [dotProduct]

/-- Euclidean distance of `[1]` from itself is 0. -/
lemma euclid_one_one : euclidean_distance [(1:ℝ)] [1] = Except.ok 0 := by
  unfold euclidean_distance
  rw [if_pos rfl]
  have h : sumSq (List.zipWith (fun x y => x - y) [(1:ℝ)] [1]) = 0 := by
    simp [sumSq]
  rw [h, Real.sqrt_zero]

/-- Scanning the one-document gallery `[wdoc]` with the query `[1]` finds
`wdoc` with cosine score 1 and Euclidean distance 0. -/
lemma scanGallery_wdoc : scanGallery [(1:ℝ)] [wdoc] =
    ({ score := 1, inmate := some wdoc },
     { dist := some 0, inmate := some wdoc }) := by
  show scanDoc [(1:ℝ)] initBest wdoc = _
  show List.foldl (scanEmb [(1:ℝ)] wdoc) initBest [StoredVec.ok [1]] = _
  rw [List.foldl_cons, List.foldl_nil]
  simp only [scanEmb]
  rw [cosine_one_one, euclid_one_one]
  simp only [initBest]
  norm_num

/-- The decision over `[wdoc]` for the query `[1]` accepts `wdoc` with
method `"cosine"` and score 1. -/
lemma decisionOf_wdoc : decisionOf [(1:ℝ)] [wdoc] = (some wdoc, "cosine", 1) := by
  rw [decisionOf, scanGallery_wdoc]
  unfold choose_match
  rw [if_pos ⟨by simp, by norm_num [COSINE_THRESHOLD]⟩]

/-! ## Claim C1 -/

/-- Claim C1: for a pair of recognize calls at times `t1 ≤ t2` that both
resolve to the same identity, with the first one accepted (outside the
cooldown window of the state's recorded last-accepted time), the first
call appends exactly one `LogDoc`, broadcasts exactly one `Payload` and
records `t1` as the identity's last-accepted time; a second call within
30 seconds of `t1` is suppressed — it changes nothing at all (no ledger
write, no broadcast, no update of the last-accepted time); a second call
at least 30 seconds after `t1` again appends one `LogDoc`, broadcasts one
`Payload` and records `t2`. -/
theorem cooldown_window_pair
    (q1 q2 : List ℝ) (i1 i2 : String) (o1 o2 : Officer) (t1 t2 : ℝ)
    (g : List InmateDoc) (st : RecogState) (doc : InmateDoc)
    (h1 : (decisionOf q1 g).1 = some doc)
    (h2 : (decisionOf q2 g).1 = some doc)
    (hacc : RECOGNITION_COOLDOWN ≤
      t1 - (lookupTime st.last_recognized doc.inmate_id).getD 0) :
    ((recognize_face q1 i1 o1 t1 g st).2.logs.length = st.logs.length + 1 ∧
     (recognize_face q1 i1 o1 t1 g st).2.events.length =
       st.events.length + 1 ∧
     lookupTime (recognize_face q1 i1 o1 t1 g st).2.last_recognized
       doc.inmate_id = some t1) ∧
    (t2 - t1 < RECOGNITION_COOLDOWN →
      (recognize_face q2 i2 o2 t2 g (recognize_face q1 i1 o1 t1 g st).2).2 =
        (recognize_face q1 i1 o1 t1 g st).2) ∧
    (RECOGNITION_COOLDOWN ≤ t2 - t1 →
      (recognize_face q2 i2 o2 t2 g
          (recognize_face q1 i1 o1 t1 g st).2).2.logs.length =
        (recognize_face q1 i1 o1 t1 g st).2.logs.length + 1 ∧
      (recognize_face q2 i2 o2 t2 g
          (recognize_face q1 i1 o1 t1 g st).2).2.events.length =
        (recognize_face q1 i1 o1 t1 g st).2.events.length + 1 ∧
      lookupTime (recognize_face q2 i2 o2 t2 g
          (recognize_face q1 i1 o1 t1 g st).2).2.last_recognized
        doc.inmate_id = some t2) := by
  have e1 := recognize_face_accept q1 i1 o1 t1 g st doc h1 hacc
  have hst1 : (recognize_face q1 i1 o1 t1 g st).2.last_recognized =
      setTime st.last_recognized doc.inmate_id t1 := by rw [e1]
  have hlook : lookupTime (recognize_face q1 i1 o1 t1 g st).2.last_recognized
      doc.inmate_id = some t1 := by
    rw [hst1]
    exact lookupTime_setTime _ _ _
  refine ⟨⟨by rw [e1]; simp, by rw [e1]; simp, hlook⟩, ?_, ?_⟩
  · intro hlt
    have hc2 : t2 - (lookupTime
        (recognize_face q1 i1 o1 t1 g st).2.last_recognized
        doc.inmate_id).getD 0 < RECOGNITION_COOLDOWN := by
      rw [hlook]
      simpa using hlt
    have e2 := recognize_face_suppress q2 i2 o2 t2 g
      (recognize_face q1 i1 o1 t1 g st).2 doc h2 hc2
    rw [e2]
  · intro hge
    have hc2 : RECOGNITION_COOLDOWN ≤ t2 - (lookupTime
        (recognize_face q1 i1 o1 t1 g st).2.last_recognized
        doc.inmate_id).getD 0 := by
      rw [hlook]
      simpa using hge
    have e2 := recognize_face_accept q2 i2 o2 t2 g
      (recognize_face q1 i1 o1 t1 g st).2 doc h2 hc2
    refine ⟨by rw [e2]; simp, by rw [e2]; simp, ?_⟩
    have hst2 : (recognize_face q2 i2 o2 t2 g
        (recognize_face q1 i1 o1 t1 g st).2).2.last_recognized =
        setTime (recognize_face q1 i1 o1 t1 g st).2.last_recognized
          doc.inmate_id t2 := by rw [e2]
    rw [hst2]
    exact lookupTime_setTime _ _ _

/-- Witness for C1: two concrete calls resolving to `wdoc` at times 100
and 110, and two at times 100 and 140. -/
theorem cooldown_window_pair_witness :
    ((recognize_face [1] "a.jpg" woff 100 [wdoc] st0).2.logs.length =
      st0.logs.length + 1) ∧
    ((recognize_face [1] "b.jpg" woff 110 [wdoc]
        (recognize_face [1] "a.jpg" woff 100 [wdoc] st0).2).2 =
      (recognize_face [1] "a.jpg" woff 100 [wdoc] st0).2) ∧
    ((recognize_face [1] "b.jpg" woff 140 [wdoc]
        (recognize_face [1] "a.jpg" woff 100 [wdoc] st0).2).2.logs.length =
      (recognize_face [1] "a.jpg" woff 100 [wdoc] st0).2.logs.length + 1) := by
  have hacc : RECOGNITION_COOLDOWN ≤
      (100:ℝ) - (lookupTime st0.last_recognized wdoc.inmate_id).getD 0 := by
    show RECOGNITION_COOLDOWN ≤ (100:ℝ) - (lookupTime [] wdoc.inmate_id).getD 0
    simp [lookupTime, RECOGNITION_COOLDOWN]
    norm_num
  have h110 := cooldown_window_pair [1] [1] "a.jpg" "b.jpg" woff woff 100 110
    [wdoc] st0 wdoc (by rw [decisionOf_wdoc]) (by rw [decisionOf_wdoc]) hacc
  have h140 := cooldown_window_pair [1] [1] "a.jpg" "b.jpg" woff woff 100 140
    [wdoc] st0 wdoc (by rw [decisionOf_wdoc]) (by rw [decisionOf_wdoc]) hacc
  exact ⟨h110.1.1, h110.2.1 (by norm_num [RECOGNITION_COOLDOWN]),
    (h140.2.2 (by norm_num [RECOGNITION_COOLDOWN])).1⟩

/-! ## Claim C3 -/

/-- Counterexample to claim C3 as stated: the response returned to the
caller contains no field indicating whether the ledger-write/broadcast
side effects occurred.  Concretely, a first call at time 100 is newly
logged (the ledger grows by one record) and a second call at time 110 is
suppressed by the cooldown (the ledger does not grow), yet the two calls
return exactly the same response — so no `newly_logged` indicator can be
present in the result. -/
theorem response_newly_logged_counterexample :
    (recognize_face [1] "a.jpg" woff 110 [wdoc]
        (recognize_face [1] "a.jpg" woff 100 [wdoc] st0).2).1 =
      (recognize_face [1] "a.jpg" woff 100 [wdoc] st0).1 ∧
    (recognize_face [1] "a.jpg" woff 100 [wdoc] st0).2.logs.length =
      st0.logs.length + 1 ∧
    (recognize_face [1] "a.jpg" woff 110 [wdoc]
        (recognize_face [1] "a.jpg" woff 100 [wdoc] st0).2).2.logs =
      (recognize_face [1] "a.jpg" woff 100 [wdoc] st0).2.logs := by
  have hacc : RECOGNITION_COOLDOWN ≤
      (100:ℝ) - (lookupTime st0.last_recognized wdoc.inmate_id).getD 0 := by
    show RECOGNITION_COOLDOWN ≤ (100:ℝ) - (lookupTime [] wdoc.inmate_id).getD 0
    simp [lookupTime, RECOGNITION_COOLDOWN]
    norm_num
  have e1 := recognize_face_accept [1] "a.jpg" woff 100 [wdoc] st0 wdoc
    (by rw [decisionOf_wdoc]) hacc
  have hlook : lookupTime
      (recognize_face [1] "a.jpg" woff 100 [wdoc] st0).2.last_recognized
      wdoc.inmate_id = some 100 := by
    rw [e1]
    exact lookupTime_setTime _ _ _
  have hc2 : (110:ℝ) - (lookupTime
      (recognize_face [1] "a.jpg" woff 100 [wdoc] st0).2.last_recognized
      wdoc.inmate_id).getD 0 < RECOGNITION_COOLDOWN := by
    rw [hlook]
    norm_num [RECOGNITION_COOLDOWN]
  have e2 := recognize_face_suppress [1] "a.jpg" woff 110 [wdoc]
    (recognize_face [1] "a.jpg" woff 100 [wdoc] st0).2 wdoc
    (by rw [decisionOf_wdoc]) hc2
  refine ⟨?_, by rw [e1]; simp, by rw [e2]⟩
  rw [e2, e1]

/-- Claim C3 amended: the response returned to the caller carries the
accepted identity (or `none`), the method and the reported score, but no
indicator of whether the side effects occurred — it is entirely
independent of the cooldown/ledger/broadcast state, so a suppressed call
is indistinguishable from a newly logged one; a cooldown-suppressed call
still receives the full match response while the state stays untouched. -/
theorem response_has_no_side_effect_indicator :
    (∀ (q : List ℝ) (img : String) (o : Officer) (now : ℝ)
        (g : List InmateDoc) (st st2 : RecogState),
      (recognize_face q img o now g st).1 =
        (recognize_face q img o now g st2).1) ∧
    (∀ (q : List ℝ) (img : String) (o : Officer) (now : ℝ)
        (g : List InmateDoc) (st : RecogState) (doc : InmateDoc),
      (decisionOf q g).1 = some doc →
      now - (lookupTime st.last_recognized doc.inmate_id).getD 0 <
        RECOGNITION_COOLDOWN →
      (recognize_face q img o now g st).1 =
        mkResponse (some doc) (decisionOf q g).2.1 (decisionOf q g).2.2 ∧
      (recognize_face q img o now g st).2 = st) := by
  constructor
  · intro q img o now g st st2
    rfl
  · intro q img o now g st doc h hc
    have e := recognize_face_suppress q img o now g st doc h hc
    exact ⟨by rw [e], by rw [e]⟩

/-- Witness for the amended C3 at a concrete suppressed call. -/
theorem response_has_no_side_effect_indicator_witness :
    (recognize_face [1] "a.jpg" woff 110 [wdoc]
        { last_recognized := [("i1", 100)], logs := [], events := [] }).1 =
      mkResponse (some wdoc) (decisionOf [1] [wdoc]).2.1
        (decisionOf [1] [wdoc]).2.2 ∧
    (recognize_face [1] "a.jpg" woff 110 [wdoc]
        { last_recognized := [("i1", 100)], logs := [], events := [] }).2 =
      { last_recognized := [("i1", 100)], logs := [], events := [] } := by
  refine response_has_no_side_effect_indicator.2 [1] "a.jpg" woff 110 [wdoc]
    { last_recognized := [("i1", 100)], logs := [], events := [] } wdoc
    (by rw [decisionOf_wdoc]) ?_
  show (110:ℝ) - (lookupTime [("i1", 100)] wdoc.inmate_id).getD 0 <
    RECOGNITION_COOLDOWN
  have h : wdoc.inmate_id = "i1" := rfl
  rw [h]
  simp [lookupTime, RECOGNITION_COOLDOWN]
  norm_num

/-! ## Claims C5 and C10: further metric evaluations -/

/-- Cosine similarity raises on the mismatched nonzero vectors `[1, 0]`
and `[1]` (the dot product of misaligned 1-D shapes). -/
lemma cosine_mismatch : cosine_similarity [(1:ℝ), 0] [1] = Except.error () := by
  unfold cosine_similarity
  rw [if_neg (by rw [norm2_one_zero, norm2_one]; norm_num),
    if_neg (by simp)]

/-- Euclidean distance of `[1, 0]` and `[1]` silently broadcasts the
length-1 operand and yields 1. -/
lemma euclid_broadcast_one :
    euclidean_distance [(1:ℝ), 0] [1] = Except.ok 1 := by
  unfold euclidean_distance
  rw [if_neg (by simp), if_neg (by simp),
    if_pos (show ([(1:ℝ)]).length = 1 from rfl)]
  have h : sumSq (List.map (fun x => x - ([(1:ℝ)]).headI) [(1:ℝ), 0]) = 1 := by
    simp [sumSq, List.headI]
  rw [h, Real.sqrt_one]

/-- Euclidean distance raises on lengths 3 and 2 (no operand of
length 1). -/
lemma euclid_mismatch_err :
    euclidean_distance [(1:ℝ), 2, 3] [1, 0] = Except.error () := by
  unfold euclidean_distance
  rw [if_neg (by simp), if_neg (by simp), if_neg (by simp)]

/-- A successful cosine similarity on vectors of unequal lengths can only
be the zero-norm fallback value 0. -/
lemma cosine_ok_of_ne_length {q v : List ℝ} {c : ℝ}
    (h : cosine_similarity q v = Except.ok c) (hne : q.length ≠ v.length) :
    c = 0 := by
  unfold cosine_similarity at h
  by_cases h1 : norm2 q = 0 ∨ norm2 v = 0
  · rw [if_pos h1] at h
    injection h with h
    exact h.symm
  · rw [if_neg h1, if_neg hne] at h
    exact absurd h (by simp)

/-- Euclidean distance raises whenever the lengths differ and neither
operand has length 1. -/
lemma euclidean_error_of_lengths {q v : List ℝ}
    (hne : q.length ≠ v.length) (hq : q.length ≠ 1) (hv : v.length ≠ 1) :
    euclidean_distance q v = Except.error () := by
  unfold euclidean_distance
  rw [if_neg hne, if_neg hq, if_neg hv]

/-- A stored embedding whose vector length differs from the query (with
neither of length 1) leaves the initial candidates untouched. -/
lemma scanEmb_initBest_of_mismatch (q : List ℝ) (doc : InmateDoc)
    (hq : q.length ≠ 1) (sv : StoredVec)
    (hsv : ∀ v : List ℝ, sv = StoredVec.ok v →
      v.length ≠ q.length ∧ v.length ≠ 1) :
    scanEmb q doc initBest sv = initBest := by
  cases sv with
  | missing => rfl
  | empty => rfl
  | malformed => rfl
  | ok v =>
    obtain ⟨hlen, hv1⟩ := hsv v rfl
    have heuc : euclidean_distance q v = Except.error () :=
      euclidean_error_of_lengths (fun h => hlen h.symm) hq hv1
    rcases hc : cosine_similarity q v with u | c
    · simp [scanEmb, hc, heuc]
    · have hc0 : c = 0 := cosine_ok_of_ne_length hc (fun h => hlen h.symm)
      subst hc0
      simp [scanEmb, hc, heuc, initBest]

/-- Folding mismatched embeddings keeps the initial candidates. -/
lemma foldl_scanEmb_initBest (q : List ℝ) (doc : InmateDoc)
    (hq : q.length ≠ 1) :
    ∀ l : List StoredVec,
      (∀ sv ∈ l, ∀ v : List ℝ, sv = StoredVec.ok v →
        v.length ≠ q.length ∧ v.length ≠ 1) →
      l.foldl (scanEmb q doc) initBest = initBest := by
  intro l
  induction l with
  | nil => intro _; rfl
  | cons sv t ih =>
    intro hl
    rw [List.foldl_cons, scanEmb_initBest_of_mismatch q doc hq sv
      (fun v hv => hl sv (by simp) v hv)]
    exact ih (fun s hs v hv => hl s (by simp [hs]) v hv)

/-- Scanning a gallery whose stored vectors all mismatch the query
leaves the initial candidates. -/
lemma scanGallery_initBest_of_mismatch (q : List ℝ) (g : List InmateDoc)
    (hq : q.length ≠ 1)
    (hg : ∀ doc ∈ g, ∀ sv ∈ doc.embeddings, ∀ v : List ℝ,
      sv = StoredVec.ok v → v.length ≠ q.length ∧ v.length ≠ 1) :
    scanGallery q g = initBest := by
  show g.foldl (scanDoc q) initBest = initBest
  revert hg
  induction g with
  | nil => intro _; rfl
  | cons doc t ih =>
    intro hg
    rw [List.foldl_cons,
      show scanDoc q initBest doc = initBest from
        foldl_scanEmb_initBest q doc hq doc.embeddings
          (fun sv hs => hg doc (by simp) sv hs)]
    exact ih (fun d hd => hg d (by simp [hd]))

/-- The mismatch condition for the query `[1, 2, 3]` against the gallery
`[wdoc2]`. -/
lemma mismatch_cond_wdoc2 :
    ∀ doc ∈ [wdoc2], ∀ sv ∈ doc.embeddings, ∀ v : List ℝ,
      sv = StoredVec.ok v →
      v.length ≠ ([(1:ℝ), 2, 3]).length ∧ v.length ≠ 1 := by
  intro doc hdoc sv hsv v hv
  rw [List.mem_singleton] at hdoc
  subst hdoc
  simp only [wdoc2] at hsv
  rw [List.mem_singleton] at hsv
  subst hsv
  injection hv with hveq
  subst hveq
  exact ⟨by simp, by simp⟩

/-- The three-dimensional query `[1, 2, 3]` against the two-dimensional
gallery `[wdoc2]` returns a plain rejection with the state untouched. -/
lemma recog_mismatch_wdoc2 :
    recognize_face [(1:ℝ), 2, 3] "a.jpg" woff 100 [wdoc2] st0 =
      (mkResponse none "none" 0, st0) := by
  have hscan := scanGallery_initBest_of_mismatch [(1:ℝ), 2, 3] [wdoc2]
    (by simp) mismatch_cond_wdoc2
  have hdec : decisionOf [(1:ℝ), 2, 3] [wdoc2] = (none, "none", 0) := by
    rw [decisionOf, hscan]
    exact choose_match_initBest _ _
  rw [recognize_face_reject [(1:ℝ), 2, 3] "a.jpg" woff 100 [wdoc2] st0
    (by rw [hdec]), hdec]

/-! ## Claim C5 -/

/-- Counterexample to claim C5 as stated: a recognize call whose query
embedding has dimension 3 against a gallery of dimension-2 embeddings
does not fail with any `InvalidInput` error — it returns a perfectly
normal rejection response with no side effects; and `euclidean_distance`
on the unequal lengths 2 and 1 is not fail-fast — NumPy broadcasting
silently computes the value 1. -/
theorem dimension_validation_counterexample :
    recognize_face [(1:ℝ), 2, 3] "a.jpg" woff 100 [wdoc2] st0 =
      (mkResponse none "none" 0, st0) ∧
    euclidean_distance [(1:ℝ), 0] [1] = Except.ok 1 :=
  ⟨recog_mismatch_wdoc2, euclid_broadcast_one⟩

/-- Claim C5 amended: `recognize_face` performs no dimension validation
and raises no error on a dimension-mismatched query — every
per-embedding comparison fails and is silently skipped, and the call
returns a normal rejection with no side effects; `euclidean_distance`
fails fast on unequal lengths only when neither operand has length 1
(when one does, NumPy broadcasting silently computes a distance instead
of raising). -/
theorem no_dimension_validation (q : List ℝ) (img : String) (o : Officer)
    (now : ℝ) (g : List InmateDoc) (st : RecogState)
    (hq : q.length ≠ 1)
    (hg : ∀ doc ∈ g, ∀ sv ∈ doc.embeddings, ∀ v : List ℝ,
      sv = StoredVec.ok v → v.length ≠ q.length ∧ v.length ≠ 1) :
    (recognize_face q img o now g st = (mkResponse none "none" 0, st)) ∧
    (∀ a b : List ℝ, a.length ≠ b.length → a.length ≠ 1 → b.length ≠ 1 →
      euclidean_distance a b = Except.error ()) := by
  constructor
  · have hscan := scanGallery_initBest_of_mismatch q g hq hg
    have hdec : decisionOf q g = (none, "none", 0) := by
      rw [decisionOf, hscan]
      exact choose_match_initBest _ _
    rw [recognize_face_reject q img o now g st (by rw [hdec]), hdec]
  · exact fun a b h1 h2 h3 => euclidean_error_of_lengths h1 h2 h3

/-- Witness for the amended C5 at the concrete mismatched query. -/
theorem no_dimension_validation_witness :
    recognize_face [(1:ℝ), 2, 3] "a.jpg" woff 100 [wdoc2] st0 =
      (mkResponse none "none" 0, st0) ∧
    euclidean_distance [(1:ℝ), 2, 3] [1, 0] = Except.error () := by
  have h := no_dimension_validation [(1:ℝ), 2, 3] "a.jpg" woff 100 [wdoc2]
    st0 (by simp) mismatch_cond_wdoc2
  exact ⟨h.1, h.2 [(1:ℝ), 2, 3] [1, 0] (by simp) (by simp) (by simp)⟩

/-! ## Claim C10 -/

/-- Counterexample to claim C10 as stated: the stored vector `[1]` of
`wdoc` fails the cosine similarity computation against the query
`[1, 0]`, yet it is not skipped as a whole — via NumPy broadcasting it
still contributes a Euclidean candidate, so it does affect the
best-Euclidean candidate (which would be absent had the embedding been
skipped, as the empty scan shows). -/
theorem scan_skip_counterexample :
    cosine_similarity [(1:ℝ), 0] [1] = Except.error () ∧
    (scanGallery [(1:ℝ), 0] [wdoc]).2.inmate = some wdoc ∧
    (scanGallery [(1:ℝ), 0] []).2.inmate = none := by
  refine ⟨cosine_mismatch, ?_, rfl⟩
  show (scanDoc [(1:ℝ), 0] initBest wdoc).2.inmate = some wdoc
  show ((List.foldl (scanEmb [(1:ℝ), 0] wdoc) initBest
    [StoredVec.ok [1]])).2.inmate = some wdoc
  rw [List.foldl_cons, List.foldl_nil]
  simp [scanEmb, cosine_mismatch, euclid_broadcast_one, initBest]

/-- Claim C10 amended: a stored embedding whose vector is missing, empty
or malformed is skipped entirely and leaves the candidates unchanged; a
vector whose cosine computation raises contributes no cosine candidate
and one whose Euclidean computation raises contributes no Euclidean
candidate, in both cases without raising to the caller — but an
embedding failing only one of the two metrics can still contribute a
candidate for the other (NumPy broadcasting lets a length-1 vector yield
a Euclidean candidate although its cosine computation raised). -/
theorem scan_silently_skips :
    (∀ (q : List ℝ) (doc : InmateDoc) (st : BestCos × BestEuc),
      scanEmb q doc st StoredVec.missing = st ∧
      scanEmb q doc st StoredVec.empty = st ∧
      scanEmb q doc st StoredVec.malformed = st) ∧
    (∀ (q v : List ℝ) (doc : InmateDoc) (st : BestCos × BestEuc),
      cosine_similarity q v = Except.error () →
      (scanEmb q doc st (StoredVec.ok v)).1 = st.1) ∧
    (∀ (q v : List ℝ) (doc : InmateDoc) (st : BestCos × BestEuc),
      euclidean_distance q v = Except.error () →
      (scanEmb q doc st (StoredVec.ok v)).2 = st.2) := by
  refine ⟨fun q doc st => ⟨rfl, rfl, rfl⟩, ?_, ?_⟩
  · intro q v doc st hcos
    rcases he : euclidean_distance q v with u | d
    · simp [scanEmb, hcos, he]
    · rcases hbd : st.2.dist with _ | bd
      · simp [scanEmb, hcos, he, hbd]
      · by_cases hdb : d < bd <;> simp [scanEmb, hcos, he, hbd, hdb]
  · intro q v doc st heuc
    rcases hc : cosine_similarity q v with u | c
    · simp [scanEmb, heuc, hc]
    · by_cases hsc : st.1.score < c <;> simp [scanEmb, heuc, hc, hsc]

/-- Witness for the amended C10: a skipped entry, a failing cosine
computation and a failing Euclidean computation at concrete inputs. -/
theorem scan_silently_skips_witness :
    scanEmb [(1:ℝ)] wdoc initBest StoredVec.missing = initBest ∧
    (scanEmb [(1:ℝ), 0] wdoc initBest (StoredVec.ok [1])).1 = initBest.1 ∧
    (scanEmb [(1:ℝ), 2, 3] wdoc initBest (StoredVec.ok [1, 0])).2 =
      initBest.2 :=
  ⟨(scan_silently_skips.1 [1] wdoc initBest).1,
   scan_silently_skips.2.1 [(1:ℝ), 0] [1] wdoc initBest cosine_mismatch,
   scan_silently_skips.2.2 [(1:ℝ), 2, 3] [1, 0] wdoc initBest
     euclid_mismatch_err⟩
